import Mathlib

/-! Verification of the autopush notification delivery and bridging subsystem.

The APNS bridge router definitions below are a shallow embedding of
src/autopush/router/apnsrouter.py.  The delivery coordinator definitions
embed the algorithm of spec section 4.1; the coordinator's own module
(autopush/endpoint.py) is not part of the excerpted sources, so its
behaviour is modelled from the spec with every branch that the unit tests
in src/autopush/tests/test_endpoint.py pin concretely following those
tests' assertions.
-/

set_option autoImplicit false

namespace Autopush

/-- Headers of a notification: the encoding and encryption metadata the
APNS router reads.  Each field is present or absent, mirroring Python
dictionary membership. -/
structure Headers where
  encoding : Option String
  encryption : Option String
  crypto_key : Option String
  encryption_key : Option String
deriving DecidableEq

/-- Notification record as consumed by APNSRouter._route: a 128-bit
channel identifier (rendered in hex for the gateway payload), a version,
an optional opaque data payload, headers, a TTL and the data length. -/
structure Notification where
  channel_id : Nat
  version : Nat
  data : Option String
  headers : Headers
  ttl : Nat
  data_length : Nat
deriving DecidableEq

/-- Router data for one registration: the gateway token, the release
channel stamped by register, and an optional aps payload override.
Fields are optional, mirroring Python dictionary membership. -/
structure RouterData where
  token : Option String
  rel_channel : Option String
  aps : Option String
deriving DecidableEq

/-- Python truthiness of an optional string: absent and empty are falsy.
Models tests such as `if notification.data:` and
`if not router_data.get("token"):` in apnsrouter.py. -/
def strTruthy : Option String → Bool
  | none => false
  | some s => !(s == "")

/-- Hex digit character in lowercase, as produced by Python's uuid hex
rendering: 0-9 then a-f. -/
def hexChar (k : Nat) : Char :=
  if k < 10 then Char.ofNat (48 + k) else Char.ofNat (87 + k)

/-- Big-endian hex digit list of a number, fixed width given by the fuel
argument. -/
def hexDigits : Nat → Nat → List Char
  | 0, _ => []
  | j + 1, m => hexDigits j (m / 16) ++ [hexChar (m % 16)]

/-- Lowercase 32-digit hex rendering of a 128-bit channel identifier,
modelling Python's uuid.UUID.hex used at apnsrouter.py line 138. -/
def uuidHex (m : Nat) : String :=
  String.mk (hexDigits 32 m)

/-- Check that a character is a lowercase hexadecimal digit. -/
def isHexLowerChar (c : Char) : Bool :=
  (48 ≤ c.toNat && c.toNat ≤ 57) || (97 ≤ c.toNat && c.toNat ≤ 102)

/-- Default aps alert payload attached by _route when the registration
supplies none (apnsrouter.py lines 151-157): mutable-content 1 with the
SentTab.NoTabArrivingNotification loc keys.  Rendered opaquely as a
string since no claim inspects its internals. -/
def defaultAps : String :=
  "mutable-content 1; alert loc-key SentTab.NoTabArrivingNotification.body title-loc-key SentTab.NoTabArrivingNotification.title"

/-- Gateway payload built by APNSRouter._route.  Optional fields mirror
presence of the corresponding keys in the Python payload dictionary. -/
structure APNSPayload where
  chid : String
  ver : Nat
  body : Option String
  con : Option String
  enc : Option String
  cryptokey : Option String
  enckey : Option String
  aps : Option String
deriving DecidableEq

/-- Payload construction of APNSRouter._route (apnsrouter.py lines
137-157).  The base payload holds chid and ver; when the data field is
truthy the body, con, enc, cryptokey or enckey, and aps entries are
added.  Reading the encoding header when it is absent raises a Python
KeyError, returned here as an error carrying the missing key. -/
def buildPayload (n : Notification) (rd : RouterData) : Except String APNSPayload :=
  if strTruthy n.data then
    match n.headers.encoding with
    | none => Except.error ("encoding")
    | some e =>
      Except.ok
        ⟨uuidHex n.channel_id, n.version, n.data, some e,
         n.headers.encryption,
         (if n.headers.crypto_key.isSome then n.headers.crypto_key else none),
         (if n.headers.crypto_key.isSome then none else n.headers.encryption_key),
         some (rd.aps.getD defaultAps)⟩
  else
    Except.ok ⟨uuidHex n.channel_id, n.version, none, none, none, none, none, none⟩

/-- Outcome of one call to the underlying APNSClient.send, classified by
the exception classes that _route distinguishes (apnsrouter.py lines
162-179): success, a RouterException raised by the client, a hyper
ConnectionError, an HTTP20Error or IOError or socket.error, or any
other exception kind. -/
inductive SendResult where
  | ok
  | routerExc (status : Nat) (body : String)
  | connectionErr
  | http2Err
  | otherExc (name : String)
deriving DecidableEq

/-- Result of APNSRouter._route as observed by its caller: a
RouterResponse, a raised RouterException, an exception that propagates
out of _route uncaught, or a Python KeyError from a dictionary read. -/
inductive RouteOutcome where
  | response (status : Nat) (body : String) (ttl : Nat) (location : String) (loggedStatus : Nat)
  | routerException (status : Nat) (body : String)
  | uncaught (name : String)
  | pyKeyError (key : String)
deriving DecidableEq

/-- Observable effects of one _route call: the outcome, the metric
increments emitted as pairs of metric name and tag, and whether a
gateway send was attempted. -/
structure RouteResult where
  outcome : RouteOutcome
  metrics : List (String × String)
  sendAttempted : Bool
deriving DecidableEq

/-- Shallow embedding of APNSRouter._route (apnsrouter.py lines
123-205).  The token and rel_channel dictionary reads and the apns
client lookup precede payload construction; the payload is built before
the send; a ConnectionError or an HTTP2-class error increments the
bridge connection error metric with its reason tag and then raises the
uniform 502 RouterException; a RouterException from the client is
re-raised unchanged; any other exception propagates uncaught; success
returns the 201 RouterResponse with the location derived from the
version and emits the sent metrics. -/
def route (endpoint_url : String) (channels : List String) (rd : RouterData)
    (n : Notification) (send : SendResult) : RouteResult :=
  match rd.token with
  | none => ⟨RouteOutcome.pyKeyError ("token"), [], false⟩
  | some _ =>
    match rd.rel_channel with
    | none => ⟨RouteOutcome.pyKeyError ("rel_channel"), [], false⟩
    | some rc =>
      if rc ∈ channels then
        match buildPayload n rd with
        | Except.error k => ⟨RouteOutcome.pyKeyError k, [], false⟩
        | Except.ok _ =>
          match send with
          | SendResult.ok =>
            ⟨RouteOutcome.response 201 ("") n.ttl
               (endpoint_url ++ "/m/" ++ toString n.version) 200,
             [(("notification.bridge.sent"), rc),
              (("updates.client.bridge.apns." ++ rc ++ ".sent"), rc),
              (("notification.message_data"), ("Direct"))], true⟩
          | SendResult.routerExc s b => ⟨RouteOutcome.routerException s b, [], true⟩
          | SendResult.connectionErr =>
            ⟨RouteOutcome.routerException 502 ("APNS returned an error processing request"),
             [(("notification.bridge.connection.error"), ("connection_error"))], true⟩
          | SendResult.http2Err =>
            ⟨RouteOutcome.routerException 502 ("APNS returned an error processing request"),
             [(("notification.bridge.connection.error"), ("http2_error"))], true⟩
          | SendResult.otherExc nm => ⟨RouteOutcome.uncaught nm, [], true⟩
      else ⟨RouteOutcome.pyKeyError rc, [], false⟩

/-- Outcome of APNSRouter.register: a raised RouterException with its
status code and response body, or success with the stamped router
data. -/
inductive RegisterOutcome where
  | exn (status : Nat) (body : String)
  | ok (stamped : RouterData)
deriving DecidableEq

/-- Result of a register call together with the number of BridgeClient
send calls it performed; the source body of register never invokes the
bridge client, so this count is zero on every path. -/
structure RegisterResult where
  outcome : RegisterOutcome
  bridgeSends : Nat
deriving DecidableEq

/-- Shallow embedding of APNSRouter.register (apnsrouter.py lines
85-104): an app_id with no configured client raises the 400 unknown
release channel RouterException; a falsy token raises the 400 no token
registered RouterException; otherwise router_data is stamped with its
release channel.  The channels list models the keys of the apns client
dictionary built from router_conf. -/
def register (channels : List String) (rd : RouterData) (app_id : String) : RegisterResult :=
  if app_id ∈ channels then
    if strTruthy rd.token then
      ⟨RegisterOutcome.ok ⟨rd.token, some app_id, rd.aps⟩, 0⟩
    else ⟨RegisterOutcome.exn 400 ("No token registered"), 0⟩
  else ⟨RegisterOutcome.exn 400 ("Unknown release channel"), 0⟩

/-- Association list lookup by string key, modelling a Python dictionary
read that raises KeyError (returns none) on a missing key. -/
def alookup {β : Type} : List (String × β) → String → Option β
  | [], _ => none
  | (k, v) :: rest, key => if k = key then some v else alookup rest key

/-- Value found for a key under one section of the router configuration:
the section lookup and the key lookup both succeed, as in the Python
expression router_conf[section][key] guarded by except KeyError. -/
def sectionValue {β : Type} (rc : List (String × List (String × β)))
    (sect key : String) : Option β :=
  (alookup rc sect).bind (fun d => alookup d key)

/-- Shallow embedding of APNSRouter._config (apnsrouter.py lines 26-33):
the per-release-channel value when both lookups succeed, otherwise the
value under the _global section, otherwise the default supplied at the
call site (as in _connect, lines 47-62). -/
def config {β : Type} (rc : List (String × List (String × β)))
    (rel_channel key : String) (dflt : Option β) : Option β :=
  match sectionValue rc rel_channel key with
  | some v => some v
  | none =>
    match sectionValue rc ("_global") key with
    | some v => some v
    | none => dflt

/-- Router record held by the routing directory: the URL of the owning
front-end node, empty when the client is offline. -/
structure RouterRecord where
  node_id : String
deriving DecidableEq

/-- Environment of one deliver call: the responses every external
collaborator would give if consulted.  The record field is the first
routing lookup; record2 is the follow-up lookup made after a
notification has been stored; pushStatus is the HTTP status of the
direct push to the recorded node; clearOk is the outcome of the
conditional clear_node; notifStatus is the status of the wake-up check
sent to a busy node; the overload flags model capacity-exceeded errors
from the backend. -/
structure DeliverEnv where
  record : Option RouterRecord
  getOverload : Bool
  pushStatus : Nat
  clearOk : Bool
  clearOverload : Bool
  saveOk : Bool
  notifStatus : Nat
  record2 : Option RouterRecord
deriving DecidableEq

/-- Observable result of one deliver call: the HTTP status and body
written to the sender, the number of offline-store save calls, of
conditional clear calls and of routing lookups performed, the push and
wake-up URLs contacted, and the router broadcast metrics emitted. -/
structure DeliverResult where
  status : Nat
  body : String
  saves : Nat
  clears : Nat
  lookups : Nat
  pushes : List String
  notifs : List String
  metrics : List String
deriving DecidableEq

/-- Positional constructor for DeliverResult. -/
def mkRes (status : Nat) (body : String) (saves clears lookups : Nat)
    (pushes notifs metrics : List String) : DeliverResult :=
  ⟨status, body, saves, clears, lookups, pushes, notifs, metrics⟩

/-- Modelled from the spec: the jumped-client handler of the delivery
coordinator (EndpointHandler._process_jumped_client of
autopush/endpoint.py, absent from src/), behaviour pinned by
test_process_jumped_client_hit, _miss and _error in
src/autopush/tests/test_endpoint.py.  After a save, a fresh lookup has
produced rec2: no record responds 404 Invalid; a record with a node
sends a best-effort wake-up to that node and responds Success with the
broadcast miss metric regardless of the wake-up outcome; a record with
no node responds Success with the miss metric.  The saves, clears,
pushes and notifs arguments carry the effects accumulated before this
step; lookups is 2 on every path reaching this handler. -/
def processJumpedClient (uaid : String) (rec2 : Option RouterRecord)
    (saves clears : Nat) (pushes notifs : List String) : DeliverResult :=
  match rec2 with
  | none => mkRes 404 ("Invalid") saves clears 2 pushes notifs []
  | some r2 =>
    if r2.node_id = "" then
      mkRes 200 ("Success") saves clears 2 pushes notifs [("router.broadcast.miss")]
    else
      mkRes 200 ("Success") saves clears 2 pushes
        (notifs ++ [r2.node_id ++ "/notif/" ++ uaid]) [("router.broadcast.miss")]

/-- Modelled from the spec: the delivery coordinator
(EndpointHandler._process_token and helpers of autopush/endpoint.py,
absent from src/), following spec section 4.1 with every branch that
the tests in src/autopush/tests/test_endpoint.py pin concretely
modelled to those tests' assertions.  A capacity-exceeded lookup or
clear responds 503 Server busy, try later; no record responds 404
Invalid with no storage write; an empty node saves the notification and
responds Success with the miss metric; a push answered 200 responds
Success with the hit metric; a push answered 404 races the conditional
clear_node, a successful clear saves and re-resolves the client through
the jumped-client handler, and a failed clear responds 503 Server is
busy with no save and no second lookup
(test_process_token_conditional_delete_fail); any other push status
saves and sends the wake-up check to the same node
(test_process_token_client_busy), falling into the jumped-client
handler only when that check answers 404
(test_save_notification_client_jumped); a save that raises responds 500
Error processing request. -/
def deliver (uaid : String) (env : DeliverEnv) : DeliverResult :=
  if env.getOverload then mkRes 503 ("Server busy, try later") 0 0 1 [] [] []
  else
    match env.record with
    | none => mkRes 404 ("Invalid") 0 0 1 [] [] []
    | some r =>
      if r.node_id = "" then
        if env.saveOk then
          mkRes 200 ("Success") 1 0 1 [] [] [("router.broadcast.miss")]
        else mkRes 500 ("Error processing request") 1 0 1 [] [] []
      else
        let pushUrl := r.node_id ++ "/push/" ++ uaid
        if env.pushStatus = 200 then
          mkRes 200 ("Success") 0 0 1 [pushUrl] [] [("router.broadcast.hit")]
        else if env.pushStatus = 404 then
          if env.clearOverload then
            mkRes 503 ("Server busy, try later") 0 1 1 [pushUrl] [] []
          else if env.clearOk then
            if env.saveOk then
              processJumpedClient uaid env.record2 1 1 [pushUrl] []
            else mkRes 500 ("Error processing request") 1 1 1 [pushUrl] [] []
          else mkRes 503 ("Server is busy") 0 1 1 [pushUrl] [] []
        else
          if env.saveOk then
            if env.notifStatus = 404 then
              processJumpedClient uaid env.record2 1 0 [pushUrl]
                [r.node_id ++ "/notif/" ++ uaid]
            else
              mkRes 200 ("Success") 1 0 1 [pushUrl]
                [r.node_id ++ "/notif/" ++ uaid] [("router.broadcast.miss")]
          else mkRes 500 ("Error processing request") 1 0 1 [pushUrl] [] []

/-- Headers carrying no entries. -/
def hdrNone : Headers := ⟨none, none, none, none⟩

/-- Headers carrying encoding, encryption, crypto_key and encryption_key. -/
def hdrFull : Headers := ⟨some ("aesgcm"), some ("salt"), some ("ck"), some ("ek")⟩

/-- Concrete notification with no data. -/
def noteNoData : Notification := ⟨4660, 789, none, hdrNone, 60, 0⟩

/-- Concrete notification with data and a full header set. -/
def noteData : Notification := ⟨4660, 789, some ("ohai"), hdrFull, 60, 4⟩

/-- Concrete notification with data but no encoding header. -/
def noteDataNoEnc : Notification := ⟨4660, 789, some ("ohai"), hdrNone, 60, 4⟩

/-- Concrete router data registered on the firefox release channel. -/
def rdFx : RouterData := ⟨some ("tok"), some ("firefox"), none⟩

/-- Record owned by the node at example.com. -/
def recEx : RouterRecord := ⟨("https://example.com")⟩

/-- Record owned by the node at example.org. -/
def recOrg : RouterRecord := ⟨("https://example.org")⟩

/-- Environment of the won conditional-clear race: push answered 404,
clear succeeds, save succeeds, the follow-up lookup still finds the
record. -/
def envRaceWon : DeliverEnv := ⟨some recEx, false, 404, true, false, true, 200, some recEx⟩

/-- Environment of the won race in which the record is deleted before
the follow-up lookup. -/
def envRaceWonGone : DeliverEnv := ⟨some recEx, false, 404, true, false, true, 200, none⟩

/-- Environment of the lost conditional-clear race: push answered 404,
clear fails, while a fresh record at a second node exists. -/
def envRaceLost : DeliverEnv := ⟨some recEx, false, 404, false, false, true, 200, some recOrg⟩

/-- Environment of a busy client: push answered 503 while the
conditional clear would succeed if it were attempted. -/
def envBusy : DeliverEnv := ⟨some recEx, false, 503, true, false, true, 200, some recEx⟩

/-- Environment of an offline client: a record with an empty node. -/
def envOffline : DeliverEnv := ⟨some ⟨("")⟩, false, 200, false, false, true, 200, some ⟨("")⟩⟩

/-- Environment of an unknown client: no record at all. -/
def envUnknown : DeliverEnv := ⟨none, false, 200, false, false, true, 200, none⟩

/-! Helper lemmas about the hex rendering of channel identifiers. -/

theorem hexChar_lower : ∀ k, k < 16 → isHexLowerChar (hexChar k) = true := by decide

theorem hexDigits_all (j : Nat) : ∀ m : Nat, (hexDigits j m).all isHexLowerChar = true := by
  induction j with
  | zero => intro m; rfl
  | succ k ih =>
    intro m
    have h1 : m % 16 < 16 := Nat.mod_lt _ (by decide)
    simp [hexDigits, List.all_append, ih (m / 16), hexChar_lower (m % 16) h1]

theorem uuidHex_lower (m : Nat) : (uuidHex m).data.all isHexLowerChar = true :=
  hexDigits_all 32 m

/-- C1 (amended): for every delivery in which the direct push to the
recorded node is answered 404, the conditional clear on the record
observed at lookup succeeds, and the offline save succeeds, deliver
persists the notification exactly once and performs exactly one
conditional clear; it responds Success with the broadcast miss metric
(Accepted) whenever the follow-up lookup still finds a record, and 404
Invalid (Gone) when the record has been deleted concurrently — the
persist still happening exactly once. -/
theorem deliver_race_won_single_persist (uaid : String) (env : DeliverEnv)
    (r : RouterRecord) (hov : env.getOverload = false) (hr : env.record = some r)
    (hn : r.node_id ≠ "") (hp : env.pushStatus = 404)
    (hcov : env.clearOverload = false) (hc : env.clearOk = true)
    (hs : env.saveOk = true) :
    (deliver uaid env).saves = 1 ∧ (deliver uaid env).clears = 1
    ∧ (∀ r2, env.record2 = some r2 →
        (deliver uaid env).status = 200 ∧ (deliver uaid env).body = ("Success")
        ∧ (deliver uaid env).metrics = [("router.broadcast.miss")])
    ∧ (env.record2 = none →
        (deliver uaid env).status = 404 ∧ (deliver uaid env).body = ("Invalid")) := by
  cases h2 : env.record2 with
  | none =>
    simp [deliver, processJumpedClient, mkRes, hov, hr, hn, hp, hcov, hc, hs, h2]
  | some r2 =>
    by_cases hb : r2.node_id = "" <;>
      simp [deliver, processJumpedClient, mkRes, hov, hr, hn, hp, hcov, hc, hs, h2, hb]

theorem deliver_race_won_single_persist_witness :
    (deliver ("123") envRaceWon).saves = 1 ∧ (deliver ("123") envRaceWon).clears = 1
    ∧ (deliver ("123") envRaceWon).body = ("Success") := by
  obtain ⟨h1, h2, h3, _⟩ :=
    deliver_race_won_single_persist ("123") envRaceWon recEx rfl rfl (by decide)
      rfl rfl rfl rfl
  exact ⟨h1, h2, (h3 recEx rfl).2.1⟩

/-- C1 counterexample: the race is won (push answered 404, conditional
clear succeeded) and the save succeeded, but the record was deleted
before the follow-up lookup: the notification is persisted exactly once
yet deliver responds 404 Invalid rather than Accepted. -/
theorem deliver_race_won_not_always_accepted :
    deliver ("123") envRaceWonGone =
      mkRes 404 ("Invalid") 1 1 2 [("https://example.com/push/123")] [] [] := rfl

/-- C2 (amended): for every delivery in which the direct push is
answered 404 and the conditional clear then fails (the race is lost),
deliver performs no further lookup and no offline save: it responds 503
Server is busy so that the sender retries, rather than re-running the
lookup-and-deliver sequence itself. -/
theorem deliver_race_lost_service_busy (uaid : String) (env : DeliverEnv)
    (r : RouterRecord) (hov : env.getOverload = false) (hr : env.record = some r)
    (hn : r.node_id ≠ "") (hp : env.pushStatus = 404)
    (hcov : env.clearOverload = false) (hc : env.clearOk = false) :
    deliver uaid env =
      mkRes 503 ("Server is busy") 0 1 1 [r.node_id ++ "/push/" ++ uaid] [] [] := by
  simp [deliver, mkRes, hov, hr, hn, hp, hcov, hc]

theorem deliver_race_lost_service_busy_witness :
    (deliver ("123") envRaceLost).status = 503
    ∧ (deliver ("123") envRaceLost).body = ("Server is busy")
    ∧ (deliver ("123") envRaceLost).clears = 1 := by
  have h := deliver_race_lost_service_busy ("123") envRaceLost recEx rfl rfl
    (by decide) rfl rfl rfl
  rw [h]
  exact ⟨rfl, rfl, rfl⟩

/-- C2 counterexample: the push is answered 404 and the conditional
clear fails while a fresh record at a second node exists in the
directory; deliver performs exactly one lookup, no save and responds
503 Server is busy — it does not re-run the lookup-and-deliver sequence
and does not fall through to the offline store. -/
theorem deliver_race_lost_no_second_attempt :
    deliver ("123") envRaceLost =
      mkRes 503 ("Server is busy") 0 1 1 [("https://example.com/push/123")] [] [] := rfl

/-- C3 (amended): race resolution is triggered only by a 404 push
response; for every delivery whose push is answered with any status
other than 200 and 404, deliver performs no conditional clear, saves
the notification once, and sends the wake-up check to the very node it
pushed to. -/
theorem deliver_nonpresent_only_race (uaid : String) (env : DeliverEnv)
    (r : RouterRecord) (hov : env.getOverload = false) (hr : env.record = some r)
    (hn : r.node_id ≠ "") (h200 : env.pushStatus ≠ 200)
    (h404 : env.pushStatus ≠ 404) (hs : env.saveOk = true) :
    (deliver uaid env).clears = 0 ∧ (deliver uaid env).saves = 1
    ∧ (deliver uaid env).pushes = [r.node_id ++ "/push/" ++ uaid]
    ∧ (deliver uaid env).notifs.take 1 = [r.node_id ++ "/notif/" ++ uaid] := by
  by_cases hns : env.notifStatus = 404
  · cases h2 : env.record2 with
    | none =>
      simp [deliver, processJumpedClient, mkRes, hov, hr, hn, h200, h404, hs, hns, h2]
    | some r2 =>
      by_cases hb : r2.node_id = "" <;>
        simp [deliver, processJumpedClient, mkRes, hov, hr, hn, h200, h404, hs, hns,
          h2, hb]
  · simp [deliver, mkRes, hov, hr, hn, h200, h404, hs, hns]

theorem deliver_nonpresent_only_race_witness :
    (deliver ("123") envBusy).clears = 0 ∧ (deliver ("123") envBusy).saves = 1 := by
  have h := deliver_nonpresent_only_race ("123") envBusy recEx rfl rfl (by decide)
    (by decide) (by decide) rfl
  exact ⟨h.1, h.2.1⟩

/-- C3 counterexample: a push answered 503 in an environment where the
conditional clear would succeed if attempted; deliver performs no clear
at all (it saves the notification and wakes the same node), refuting
the claim that every non-200 response triggers race resolution. -/
theorem deliver_busy_no_clear :
    deliver ("123") envBusy =
      mkRes 200 ("Success") 1 0 1 [("https://example.com/push/123")]
        [("https://example.com/notif/123")] [("router.broadcast.miss")] := rfl

/-- C9: a lookup returning a record with an empty node persists the
notification and responds Success with the broadcast miss metric
(Accepted); a lookup returning no record at all responds 404 Invalid
(ClientUnknown) with no storage write. -/
theorem deliver_offline_vs_unknown (uaid : String) (env1 env2 : DeliverEnv)
    (r : RouterRecord) (h1 : env1.getOverload = false) (h2 : env1.record = some r)
    (h3 : r.node_id = "") (h4 : env1.saveOk = true)
    (h5 : env2.getOverload = false) (h6 : env2.record = none) :
    deliver uaid env1 = mkRes 200 ("Success") 1 0 1 [] [] [("router.broadcast.miss")]
    ∧ deliver uaid env2 = mkRes 404 ("Invalid") 0 0 1 [] [] [] := by
  constructor <;> simp [deliver, mkRes, h1, h2, h3, h4, h5, h6]

theorem deliver_offline_vs_unknown_witness :
    deliver ("123") envOffline =
      mkRes 200 ("Success") 1 0 1 [] [] [("router.broadcast.miss")]
    ∧ deliver ("123") envUnknown = mkRes 404 ("Invalid") 0 0 1 [] [] [] :=
  deliver_offline_vs_unknown ("123") envOffline envUnknown ⟨("")⟩ rfl rfl rfl rfl rfl rfl

/-- C4 (amended): for every notification with no data, the gateway
payload contains only the channel id rendered in lowercase hex and the
version; the body, con, enc, cryptokey, enckey and also the aps entries
are all absent — the default alert payload is attached only on the
data-bearing path. -/
theorem payload_no_data_minimal (n : Notification) (rd : RouterData)
    (h : strTruthy n.data = false) :
    buildPayload n rd =
      Except.ok ⟨uuidHex n.channel_id, n.version, none, none, none, none, none, none⟩
    ∧ (uuidHex n.channel_id).data.all isHexLowerChar = true := by
  refine ⟨?_, uuidHex_lower n.channel_id⟩
  simp [buildPayload, h]

theorem payload_no_data_minimal_witness :
    buildPayload noteNoData rdFx =
      Except.ok ⟨uuidHex 4660, 789, none, none, none, none, none, none⟩
    ∧ (uuidHex 4660).data.all isHexLowerChar = true :=
  payload_no_data_minimal noteNoData rdFx rfl

/-- C4 counterexample: a notification with no data, sent under a
registration that supplies no aps override, produces a payload whose
aps entry is absent — not the default alert payload the claim
expects. -/
theorem payload_no_data_omits_default_alert :
    buildPayload noteNoData rdFx =
      Except.ok ⟨uuidHex 4660, 789, none, none, none, none, none, none⟩
    ∧ (⟨uuidHex 4660, 789, none, none, none, none, none, none⟩ : APNSPayload).aps
        ≠ some defaultAps :=
  ⟨rfl, by simp⟩

/-- C5: for every notification with truthy data and an encoding header,
the gateway payload carries the data as body, the encoding header as
con, the encryption header as enc exactly when that header is present,
and at most one of cryptokey and enckey: the crypto_key header when
present, otherwise the encryption_key header. -/
theorem payload_with_data_fields (n : Notification) (rd : RouterData) (e : String)
    (hd : strTruthy n.data = true) (he : n.headers.encoding = some e) :
    ∃ p, buildPayload n rd = Except.ok p
      ∧ p.body = n.data ∧ p.con = some e ∧ p.enc = n.headers.encryption
      ∧ (n.headers.crypto_key.isSome = true →
          p.cryptokey = n.headers.crypto_key ∧ p.enckey = none)
      ∧ (n.headers.crypto_key = none →
          p.cryptokey = none ∧ p.enckey = n.headers.encryption_key)
      ∧ (p.cryptokey = none ∨ p.enckey = none) := by
  cases hck : n.headers.crypto_key with
  | none =>
    exact ⟨⟨uuidHex n.channel_id, n.version, n.data, some e, n.headers.encryption,
        none, n.headers.encryption_key, some (rd.aps.getD defaultAps)⟩,
      by simp [buildPayload, hd, he, hck], rfl, rfl, rfl,
      by simp [hck], fun _h => ⟨rfl, rfl⟩, Or.inl rfl⟩
  | some ck =>
    exact ⟨⟨uuidHex n.channel_id, n.version, n.data, some e, n.headers.encryption,
        some ck, none, some (rd.aps.getD defaultAps)⟩,
      by simp [buildPayload, hd, he, hck], rfl, rfl, rfl,
      fun _h => ⟨rfl, rfl⟩, by simp [hck], Or.inr rfl⟩

theorem payload_with_data_fields_witness :
    ∃ p, buildPayload noteData rdFx = Except.ok p
      ∧ p.body = noteData.data ∧ p.con = some ("aesgcm")
      ∧ p.enc = noteData.headers.encryption
      ∧ (noteData.headers.crypto_key.isSome = true →
          p.cryptokey = noteData.headers.crypto_key ∧ p.enckey = none)
      ∧ (noteData.headers.crypto_key = none →
          p.cryptokey = none ∧ p.enckey = noteData.headers.encryption_key)
      ∧ (p.cryptokey = none ∨ p.enckey = none) :=
  payload_with_data_fields noteData rdFx ("aesgcm") rfl rfl

/-- C6: register raises the 400 unknown release channel RouterException
when the release channel has no configured client, raises the 400 no
token registered RouterException when the registration data carries no
truthy token, and otherwise stamps the data with its release channel;
no path of register performs a bridge client send. -/
theorem register_validation (channels : List String) (rd : RouterData)
    (app_id : String) :
    (app_id ∉ channels →
      register channels rd app_id =
        ⟨RegisterOutcome.exn 400 ("Unknown release channel"), 0⟩)
    ∧ (app_id ∈ channels → strTruthy rd.token = false →
      register channels rd app_id =
        ⟨RegisterOutcome.exn 400 ("No token registered"), 0⟩)
    ∧ (app_id ∈ channels → strTruthy rd.token = true →
      register channels rd app_id =
        ⟨RegisterOutcome.ok ⟨rd.token, some app_id, rd.aps⟩, 0⟩)
    ∧ (register channels rd app_id).bridgeSends = 0 := by
  refine ⟨fun h => ?_, fun h ht => ?_, fun h ht => ?_, ?_⟩
  · simp [register, h]
  · simp [register, h, ht]
  · simp [register, h, ht]
  · by_cases h : app_id ∈ channels <;> by_cases ht : strTruthy rd.token <;>
      simp [register, h, ht]

theorem register_validation_witness :
    register [("firefox")] rdFx ("beta") =
      ⟨RegisterOutcome.exn 400 ("Unknown release channel"), 0⟩
    ∧ register [("firefox")] ⟨none, none, none⟩ ("firefox") =
      ⟨RegisterOutcome.exn 400 ("No token registered"), 0⟩
    ∧ register [("firefox")] rdFx ("firefox") =
      ⟨RegisterOutcome.ok ⟨some ("tok"), some ("firefox"), none⟩, 0⟩ :=
  ⟨(register_validation [("firefox")] rdFx ("beta")).1 (by decide),
   (register_validation [("firefox")] ⟨none, none, none⟩ ("firefox")).2.1
     (by decide) rfl,
   (register_validation [("firefox")] rdFx ("firefox")).2.2.1 (by decide) rfl⟩

/-- C7 (amended): on a send failure _route classifies only the two
connection-level classes for metrics — a ConnectionError with reason
connection_error and an HTTP2, IO or socket error with reason
http2_error — and for those raises the uniform 502 RouterException; a
RouterException raised by the client is re-raised unchanged, and any
other exception kind propagates out of _route unclassified, with no
metric and no 502. -/
theorem route_error_classification (u : String) (channels : List String)
    (rd : RouterData) (n : Notification) (tok rc : String) (p : APNSPayload)
    (ht : rd.token = some tok) (hc : rd.rel_channel = some rc)
    (hm : rc ∈ channels) (hp : buildPayload n rd = Except.ok p) :
    route u channels rd n SendResult.connectionErr =
      ⟨RouteOutcome.routerException 502 ("APNS returned an error processing request"),
       [(("notification.bridge.connection.error"), ("connection_error"))], true⟩
    ∧ route u channels rd n SendResult.http2Err =
      ⟨RouteOutcome.routerException 502 ("APNS returned an error processing request"),
       [(("notification.bridge.connection.error"), ("http2_error"))], true⟩
    ∧ (∀ s b, route u channels rd n (SendResult.routerExc s b) =
        ⟨RouteOutcome.routerException s b, [], true⟩)
    ∧ (∀ nm, route u channels rd n (SendResult.otherExc nm) =
        ⟨RouteOutcome.uncaught nm, [], true⟩) := by
  refine ⟨?_, ?_, fun s b => ?_, fun nm => ?_⟩ <;> simp [route, ht, hc, hm, hp]

theorem route_error_classification_witness :
    route ("http://ep") [("firefox")] rdFx noteNoData SendResult.connectionErr =
      ⟨RouteOutcome.routerException 502 ("APNS returned an error processing request"),
       [(("notification.bridge.connection.error"), ("connection_error"))], true⟩
    ∧ route ("http://ep") [("firefox")] rdFx noteNoData (SendResult.otherExc ("ValueError")) =
      ⟨RouteOutcome.uncaught ("ValueError"), [], true⟩ := by
  have h := route_error_classification ("http://ep") [("firefox")] rdFx noteNoData
    ("tok") ("firefox")
    ⟨uuidHex 4660, 789, none, none, none, none, none, none⟩
    rfl rfl (by decide) rfl
  exact ⟨h.1, h.2.2.2 ("ValueError")⟩

/-- C7 counterexample: an exception kind outside the classified classes
propagates out of _route uncaught — no metric is emitted and no uniform
502 BridgeFailure is surfaced, refuting the claim that every failure is
classified and mapped to 502. -/
theorem route_unknown_exception_unclassified :
    route ("http://ep") [("firefox")] rdFx noteNoData (SendResult.otherExc ("ValueError")) =
      ⟨RouteOutcome.uncaught ("ValueError"), [], true⟩
    ∧ RouteOutcome.uncaught ("ValueError") ≠
      RouteOutcome.routerException 502 ("APNS returned an error processing request") :=
  ⟨rfl, by simp⟩

/-- C8: for every configuration key and release channel the value used
by the bridge router is the per-release-channel value when both the
channel section and the key are present, otherwise the value under the
_global section, otherwise the default supplied at the call site — the
three-level fallback is total and ordered. -/
theorem config_three_level_fallback {β : Type} (rc : List (String × List (String × β)))
    (c k : String) (dflt : Option β) :
    (∀ v, sectionValue rc c k = some v → config rc c k dflt = some v)
    ∧ (sectionValue rc c k = none →
        ∀ w, sectionValue rc ("_global") k = some w → config rc c k dflt = some w)
    ∧ (sectionValue rc c k = none → sectionValue rc ("_global") k = none →
        config rc c k dflt = dflt) := by
  refine ⟨fun v hv => ?_, fun h0 w hw => ?_, fun h0 h1 => ?_⟩ <;> simp [config, *]

theorem config_three_level_fallback_witness :
    config [(("firefox"), [(("max_retry"), 5)]), (("_global"), [(("max_retry"), 7)])]
        ("firefox") ("max_retry") (some 2) = some 5
    ∧ config [(("_global"), [(("max_retry"), 7)])]
        ("firefox") ("max_retry") (some 2) = some 7
    ∧ config ([] : List (String × List (String × Nat)))
        ("firefox") ("max_retry") (some 2) = some 2 :=
  ⟨(config_three_level_fallback
      [(("firefox"), [(("max_retry"), 5)]), (("_global"), [(("max_retry"), 7)])]
      ("firefox") ("max_retry") (some 2)).1 5 rfl,
   (config_three_level_fallback [(("_global"), [(("max_retry"), 7)])]
      ("firefox") ("max_retry") (some 2)).2.1 rfl 7 rfl,
   (config_three_level_fallback ([] : List (String × List (String × Nat)))
      ("firefox") ("max_retry") (some 2)).2.2 rfl rfl⟩

/-- C10: for every data-bearing notification whose headers lack an
encoding entry, _route fails with the KeyError from the encoding lookup
before any gateway send is attempted, whatever the gateway would have
answered; and whenever the encoding header is present the payload
construction succeeds, so under that implicit precondition the header
lookups never fail. -/
theorem route_encoding_guard (u : String) (channels : List String)
    (rd : RouterData) (n : Notification) (tok rc : String)
    (ht : rd.token = some tok) (hc : rd.rel_channel = some rc)
    (hm : rc ∈ channels) (hd : strTruthy n.data = true) :
    (n.headers.encoding = none →
      ∀ send, route u channels rd n send =
        ⟨RouteOutcome.pyKeyError ("encoding"), [], false⟩)
    ∧ (∀ e, n.headers.encoding = some e → ∃ p, buildPayload n rd = Except.ok p) := by
  constructor
  · intro he send
    simp [route, buildPayload, ht, hc, hm, hd, he]
  · intro e he
    exact ⟨⟨uuidHex n.channel_id, n.version, n.data, some e, n.headers.encryption,
        (if n.headers.crypto_key.isSome then n.headers.crypto_key else none),
        (if n.headers.crypto_key.isSome then none else n.headers.encryption_key),
        some (rd.aps.getD defaultAps)⟩, by simp [buildPayload, hd, he]⟩

theorem route_encoding_guard_witness :
    route ("http://ep") [("firefox")] rdFx noteDataNoEnc SendResult.ok =
      ⟨RouteOutcome.pyKeyError ("encoding"), [], false⟩
    ∧ ∃ p, buildPayload noteData rdFx = Except.ok p :=
  ⟨(route_encoding_guard ("http://ep") [("firefox")] rdFx noteDataNoEnc
      ("tok") ("firefox") rfl rfl (by decide) rfl).1 rfl SendResult.ok,
   (route_encoding_guard ("http://ep") [("firefox")] rdFx noteData
      ("tok") ("firefox") rfl rfl (by decide) rfl).2 ("aesgcm") rfl⟩

end Autopush
